import Mathlib

set_option maxRecDepth 100000

/-!
Verification of `crazyflie/scripts/crazyflie_server.py` (class `CrazyflieROS`).

Shallow embedding conventions:
* ROS `Twist` messages carry six rational fields (`linear.x/y/z`,
  `angular.x/y/z`); the Python floats in play are modelled as `ℚ`
  (the IMU conversion, which involves `math.pi`, is modelled over `ℝ`).
* Python `int(x)` truncates toward zero; `pyInt` embeds it on `ℚ`.
* `str.replace(a, b)` with single-character arguments replaces every
  occurrence of the character `a` by `b`; `replaceChar` embeds it.
* The watchdog's effects (link sends, sleeps, link close) are recorded as
  an explicit event trace; sleep durations are in milliseconds
  (`rospy.sleep(0.01)` becomes `sleepMs 10`).
* The source's `tf_prefix` attribute is named `tfp` here.
-/

/-- A 3-vector of rationals, embedding `geometry_msgs.Vector3`. -/
structure Vec3 where
  x : ℚ
  y : ℚ
  z : ℚ
deriving DecidableEq

/-- Embeds `geometry_msgs.Twist`: a linear and an angular vector. -/
structure Twist where
  linear : Vec3
  angular : Vec3
deriving DecidableEq

/-- `Twist()` — the default-constructed message, all fields zero. -/
def Twist.zero : Twist := ⟨⟨0, 0, 0⟩, ⟨0, 0, 0⟩⟩

/-- Python `int(x)` on a float: truncation toward zero. -/
def pyInt (q : ℚ) : ℤ := if q < 0 then ⌈q⌉ else ⌊q⌋

/-- The four-field setpoint handed to `commander.send_setpoint`. -/
structure Setpoint where
  roll : ℚ
  pitch : ℚ
  yawrate : ℚ
  thrust : ℤ
deriving DecidableEq

/-- Embeds `CrazyflieROS._send_setpoint`:
`roll = self._cmdVel.linear.y + self.roll_trim`,
`pitch = self._cmdVel.linear.x + self.pitch_trim`,
`yawrate = self._cmdVel.angular.z`,
`thrust = min(max(0, int(self._cmdVel.linear.z)), 60000)`. -/
def send_setpoint (cmdVel : Twist) (roll_trim pitch_trim : ℚ) : Setpoint :=
  { roll := cmdVel.linear.y + roll_trim
    pitch := cmdVel.linear.x + pitch_trim
    yawrate := cmdVel.angular.z
    thrust := min (max 0 (pyInt cmdVel.linear.z)) 60000 }

/-- The mutable per-session fields touched by command ingest. -/
structure SessionState where
  cmdVel : Twist
  isEmergency : Bool
  roll_trim : ℚ
  pitch_trim : ℚ
deriving DecidableEq

/-- Embeds `CrazyflieROS._cmdVelChanged`: `self._cmdVel = data` is executed
unconditionally; then, only when `not self._isEmergency`, the freshly stored
command is sent via `_send_setpoint`.  Returns the post-call state and the
list of setpoints sent by the call. -/
def cmdVelChanged (s : SessionState) (data : Twist) :
    SessionState × List Setpoint :=
  let s1 := { s with cmdVel := data }
  if s.isEmergency then (s1, [])
  else (s1, [send_setpoint s1.cmdVel s1.roll_trim s1.pitch_trim])

/-- The lifecycle states of `CrazyflieROS` (`Disconnected = 0`,
`Connecting = 1`, `Connected = 2`). -/
inductive ConnState where
  | disconnected
  | connecting
  | connected
deriving DecidableEq

/-- The events that touch `self._state`: a watchdog loop iteration, and the
five link callbacks registered in `__init__`. -/
inductive ConnEvent where
  | tick
  | connectedEv
  | connectionFailed
  | connectionLost
  | disconnectedEv
  | linkQuality
deriving DecidableEq

/-- Embeds the state updates of the source: `_update` calls
`_try_to_connect` (which sets `Connecting` and opens the link) only when
the state is `Disconnected`; `_connected` sets `Connected`;
`_connection_failed`, `_connection_lost` and `_disconnected` set
`Disconnected`; `_link_quality_updated` does nothing.  None of the
callbacks inspects the current state.  The boolean records whether a
link-open request (`open_link`) was issued. -/
def connStep : ConnState → ConnEvent → ConnState × Bool
  | s, .tick =>
      if s = .disconnected then (.connecting, true) else (s, false)
  | _, .connectedEv => (.connected, false)
  | _, .connectionFailed => (.disconnected, false)
  | _, .connectionLost => (.disconnected, false)
  | _, .disconnectedEv => (.disconnected, false)
  | s, .linkQuality => (s, false)

/-- An observable effect of the watchdog thread: a `send_setpoint` on the
commander, a `rospy.sleep` (duration in milliseconds), or `close_link`. -/
inductive Event where
  | send (sp : Setpoint)
  | sleepMs (ms : ℕ)
  | closeLink
deriving DecidableEq

/-- `Event.isSend e` holds exactly when `e` is a commander send. -/
def Event.isSend : Event → Bool
  | .send _ => true
  | _ => false

/-- Embeds the tail of `CrazyflieROS._update`, entered when the `while` loop
exits (emergency latch set, or `rospy.is_shutdown()`):
`for i in range(0, 100): send_setpoint(0, 0, 0, 0); sleep(0.01)`, then
`sleep(0.1)`, then `close_link()`.  The loop body ignores `i`, and the whole
sequence reads neither the trims nor the stored command — they are taken as
arguments precisely to record that the trace does not depend on them. -/
def shutdownSeq (_roll_trim _pitch_trim : ℚ) (_cmdVel : Twist) : List Event :=
  ((List.range 100).flatMap fun _ => [Event.send ⟨0, 0, 0, 0⟩, Event.sleepMs 10])
    ++ [Event.sleepMs 100, Event.closeLink]

/-- Embeds the `Connected` branch of the watchdog loop when
`self._subCmdVel.get_num_connections() == 0`: `self._cmdVel = Twist()` then
`self._send_setpoint()`.  Returns the post-iteration state and the setpoint
put on the wire. -/
def watchdogNoSubscriber (s : SessionState) : SessionState × Setpoint :=
  let s1 := { s with cmdVel := Twist.zero }
  (s1, send_setpoint s1.cmdVel s1.roll_trim s1.pitch_trim)

/-- Pointwise character replacement; embeds Python `str.replace(a, b)` for
single-character `a`, `b` (every occurrence of `a` becomes `b`). -/
def replaceChar (a b : Char) (s : String) : String :=
  ⟨s.data.map fun c => if c = a then b else c⟩

/-- Embeds `CrazyflieROS._param_callback`: the device identifier `name`
(with `.` separators) becomes the ROS parameter path
`"{}/{}".format(self.tf_prefix, name.replace(".", "/"))`, and `value` is
written there.  Returns the (path, value) write performed. -/
def param_callback {V : Type} (tfp : String) (name : String) (value : V) :
    String × V :=
  (tfp ++ "/" ++ replaceChar '.' '/' name, value)

/-- The ROS parameter path looked up for one entry of an update-params
request: `"/{}/{}".format(self.tf_prefix, param)`. -/
def rosParamOf (tfp : String) (p : String) : String :=
  "/" ++ tfp ++ "/" ++ p

/-- The device identifier pushed for one entry:
`param.replace("/", ".")`. -/
def cfParamOf (p : String) : String := replaceChar '/' '.' p

/-- Whether one loop iteration of `_update_params` completes without an
exception: `rospy.get_param` must find a value at the mapped path (the
`has_param` guard is commented out, so a missing value raises `KeyError`),
and the `param.set_value` push to the device must not raise (`devOk`). -/
def entryOk {V : Type} (store : String → Option V) (toStr : V → String)
    (devOk : String → String → Bool) (tfp : String) (p : String) : Bool :=
  match store (rosParamOf tfp p) with
  | none => false
  | some v => devOk (cfParamOf p) (toStr v)

/-- Embeds the `for param in req.params` loop of
`CrazyflieROS._update_params`.  `store` is the ROS parameter server,
`toStr` is Python `str` (the value is stringified before the push), and
`devOk` tells whether `param.set_value` succeeds.  Returns the pushes
performed in order, and `none` for a normal return
(`UpdateParamsResponse()`) or `some msg` when an uncaught exception
terminated the handler — there is no `try/except`, so the first failing
entry aborts the remaining iterations, while earlier pushes stand. -/
def update_params {V : Type} (store : String → Option V) (toStr : V → String)
    (devOk : String → String → Bool) (tfp : String) :
    List String → List (String × String) × Option String
  | [] => ([], none)
  | p :: rest =>
      match store (rosParamOf tfp p) with
      | none => ([], some ("KeyError: " ++ rosParamOf tfp p))
      | some v =>
          if devOk (cfParamOf p) (toStr v) then
            let r := update_params store toStr devOk tfp rest
            ((cfParamOf p, toStr v) :: r.1, r.2)
          else ([], some ("set_value failed: " ++ cfParamOf p))

/-- One decoded IMU log block: the six variables registered on `_lg_imu`
(`acc.x`, `acc.y`, `acc.z`, `gyro.x`, `gyro.y`, `gyro.z`), over `ℝ`. -/
structure ImuData where
  acc_x : ℝ
  acc_y : ℝ
  acc_z : ℝ
  gyro_x : ℝ
  gyro_y : ℝ
  gyro_z : ℝ

/-- A 3-vector over `ℝ`, for the published `Imu` message fields. -/
structure Vec3R where
  x : ℝ
  y : ℝ
  z : ℝ

/-- The fields of the published `sensor_msgs.Imu` message that
`_log_data_imu` fills in. -/
structure ImuMsg where
  orientation_covariance0 : ℝ
  angular_velocity : Vec3R
  linear_acceleration : Vec3R

/-- Python `math.radians`: degrees to radians, `x * (pi / 180)`. -/
noncomputable def radians (x : ℝ) : ℝ := x * (Real.pi / 180)

/-- Embeds `CrazyflieROS._log_data_imu`: sets
`orientation_covariance[0] = -1`,
`angular_velocity = math.radians(data["gyro.*"])` and
`linear_acceleration = data["acc.*"] * 9.81`. -/
noncomputable def log_data_imu (d : ImuData) : ImuMsg :=
  { orientation_covariance0 := -1
    angular_velocity := ⟨radians d.gyro_x, radians d.gyro_y, radians d.gyro_z⟩
    linear_acceleration := ⟨d.acc_x * 9.81, d.acc_y * 9.81, d.acc_z * 9.81⟩ }

/-- The push recorded for one successful `_update_params` entry: the device
identifier and the stringified parameter-server value. -/
def pushOf {V : Type} (store : String → Option V) (toStr : V → String)
    (tfp : String) (p : String) : String × String :=
  (cfParamOf p, (store (rosParamOf tfp p)).elim "" toStr)

/-- The link event discipline of §4.2: connected / connection-failed are
delivered only while Connecting, connection-lost / disconnected only while
Connected; ticks and link-quality updates may occur in any state. -/
def admissibleEv : ConnState → ConnEvent → Bool
  | _, .tick => true
  | _, .linkQuality => true
  | .connecting, .connectedEv => true
  | .connecting, .connectionFailed => true
  | .connected, .connectionLost => true
  | .connected, .disconnectedEv => true
  | _, _ => false

/-- Modelled from the spec: the §4.2 transition table as a function — rows
of the table move the state, every other (state, event) pair leaves it
unchanged. -/
def specTable : ConnState → ConnEvent → ConnState
  | .disconnected, .tick => .connecting
  | .connecting, .connectedEv => .connected
  | .connecting, .connectionFailed => .disconnected
  | .connected, .connectionLost => .disconnected
  | .connected, .disconnectedEv => .disconnected
  | s, _ => s

/-! ### Helper lemmas -/

/-- Under the lower clamp at `0`, Python truncation agrees with `floor`. -/
lemma clamp_pyInt_eq_clamp_floor (q : ℚ) :
    min (max 0 (pyInt q)) 60000 = min (max 0 ⌊q⌋) 60000 := by
  unfold pyInt
  by_cases h : q < 0
  · rw [if_pos h]
    have hc : ⌈q⌉ ≤ 0 := Int.ceil_le.mpr (by exact_mod_cast h.le)
    have hf : ⌊q⌋ ≤ 0 := Int.floor_nonpos h.le
    rw [max_eq_left hc, max_eq_left hf]
  · rw [if_neg h]

/-- Swapping `a` for `b` and then `b` for `a` restores a character list in
which `b` does not occur. -/
lemma map_swap_swap (a b : Char) (l : List Char) (h : b ∉ l) :
    ((l.map fun c => if c = a then b else c).map
      fun c => if c = b then a else c) = l := by
  induction l with
  | nil => simp
  | cons c t ih =>
      simp only [List.mem_cons, not_or] at h
      obtain ⟨h1, h2⟩ := h
      simp only [List.map_cons, ih h2]
      by_cases hc : c = a
      · subst hc; simp
      · rw [if_neg hc, if_neg fun hb => h1 hb.symm]

/-- The two delimiter swaps are mutually inverse when the target delimiter
is absent from the identifier. -/
lemma replaceChar_swap_swap (a b : Char) (s : String) (h : b ∉ s.data) :
    replaceChar b a (replaceChar a b s) = s := by
  cases s with
  | mk l => exact congrArg String.mk (map_swap_swap a b l h)

/-- The pushes performed by `_update_params` are exactly the entries up to
(and excluding) the first failing one, in order. -/
lemma update_params_fst {V : Type} (store : String → Option V)
    (toStr : V → String) (devOk : String → String → Bool) (tfp : String)
    (params : List String) :
    (update_params store toStr devOk tfp params).1 =
      (params.takeWhile (entryOk store toStr devOk tfp)).map
        (pushOf store toStr tfp) := by
  induction params with
  | nil => rfl
  | cons p rest ih =>
      cases hs : store (rosParamOf tfp p) with
      | none => simp [update_params, entryOk, hs]
      | some v =>
          by_cases hd : devOk (cfParamOf p) (toStr v) = true
          · simp [update_params, entryOk, hs, hd, ih, pushOf]
          · simp [update_params, entryOk, hs, hd]

/-- `_update_params` returns normally iff every entry of the request
succeeds (value present on the parameter server, push accepted). -/
lemma update_params_snd {V : Type} (store : String → Option V)
    (toStr : V → String) (devOk : String → String → Bool) (tfp : String)
    (params : List String) :
    (update_params store toStr devOk tfp params).2 = none ↔
      params.all (entryOk store toStr devOk tfp) = true := by
  induction params with
  | nil => simp [update_params]
  | cons p rest ih =>
      cases hs : store (rosParamOf tfp p) with
      | none => simp [update_params, entryOk, hs]
      | some v =>
          by_cases hd : devOk (cfParamOf p) (toStr v) = true
          · simp [update_params, entryOk, hs, hd, ih]
          · simp [update_params, entryOk, hs, hd]

/-- Every push performed by `_update_params` is the stringification of a
value found on the parameter server at the mapped path of some requested
entry. -/
lemma update_params_pushes_shape {V : Type} (store : String → Option V)
    (toStr : V → String) (devOk : String → String → Bool) (tfp : String) :
    ∀ params : List String,
      ∀ x ∈ (update_params store toStr devOk tfp params).1,
        ∃ q v, q ∈ params ∧ store (rosParamOf tfp q) = some v ∧
          x = (cfParamOf q, toStr v) := by
  intro params
  induction params with
  | nil => intro x hx; simp [update_params] at hx
  | cons p rest ih =>
      intro x hx
      cases hs : store (rosParamOf tfp p) with
      | none => simp [update_params, hs] at hx
      | some v =>
          by_cases hd : devOk (cfParamOf p) (toStr v) = true
          · simp only [update_params, hs, hd, if_true] at hx
            rcases List.mem_cons.mp hx with rfl | hx1
            · exact ⟨p, v, List.mem_cons.mpr (Or.inl rfl), hs, rfl⟩
            · obtain ⟨q, v1, hq, hsv, hxq⟩ := ih x hx1
              exact ⟨q, v1, List.mem_cons.mpr (Or.inr hq), hsv, hxq⟩
          · simp [update_params, hs, hd] at hx

/-! ### Claims -/

/-- C1 (counterexample): the claim that, with the Emergency latch set, a
`cmd_vel` callback leaves the stored `_cmdVel` unchanged is false:
`self._cmdVel = data` is executed before the emergency test, so an incoming
command received in emergency overwrites the stored setpoint. -/
theorem emergency_cmdVel_still_overwritten :
    (cmdVelChanged ⟨Twist.zero, true, 0, 0⟩ ⟨⟨0, 0, 5⟩, ⟨0, 0, 0⟩⟩).1.cmdVel =
      ⟨⟨0, 0, 5⟩, ⟨0, 0, 0⟩⟩ ∧
    (⟨⟨0, 0, 5⟩, ⟨0, 0, 0⟩⟩ : Twist) ≠ Twist.zero := by
  decide

/-- C1 (amended): once the Emergency latch is set, a `cmd_vel` callback
still overwrites the stored `_cmdVel` with the incoming command, but it
issues no `send_setpoint`, and the latch stays set. -/
theorem emergency_suppresses_send_not_write
    (s : SessionState) (d : Twist) (h : s.isEmergency = true) :
    (cmdVelChanged s d).1.cmdVel = d ∧
    (cmdVelChanged s d).2 = [] ∧
    (cmdVelChanged s d).1.isEmergency = true := by
  simp [cmdVelChanged, h]

/-- C1 (witness): the amended statement at a concrete emergency state. -/
theorem emergency_suppresses_send_not_write_witness :
    (⟨Twist.zero, true, 0, 0⟩ : SessionState).isEmergency = true ∧
    ((cmdVelChanged ⟨Twist.zero, true, 0, 0⟩ ⟨⟨0, 0, 5⟩, ⟨0, 0, 0⟩⟩).1.cmdVel =
        ⟨⟨0, 0, 5⟩, ⟨0, 0, 0⟩⟩ ∧
      (cmdVelChanged ⟨Twist.zero, true, 0, 0⟩ ⟨⟨0, 0, 5⟩, ⟨0, 0, 0⟩⟩).2 = [] ∧
      (cmdVelChanged ⟨Twist.zero, true, 0, 0⟩ ⟨⟨0, 0, 5⟩, ⟨0, 0, 0⟩⟩).1.isEmergency = true) :=
  ⟨rfl, emergency_suppresses_send_not_write ⟨Twist.zero, true, 0, 0⟩ ⟨⟨0, 0, 5⟩, ⟨0, 0, 0⟩⟩ rfl⟩

/-- C3 (counterexample): the claim that from Disconnected only a watchdog
tick moves the state is false: the `_connected` callback assigns
`Connected` without checking the current state, so a connected event moves
even a Disconnected session to Connected. -/
theorem connected_event_moves_disconnected :
    connStep .disconnected .connectedEv = (.connected, false) ∧
    ConnState.connected ≠ ConnState.disconnected := by
  decide

/-- C3 (amended): the lifecycle callbacks assign the new state regardless
of the current state, so the §4.2 table holds exactly under the link's
event discipline: for every event admissible in the current state, the
state changes along the §4.2 table, and a link-open request is issued
precisely by a watchdog tick in Disconnected.  (Link-quality updates are
always admissible and never change the state.) -/
theorem conn_state_machine_table (s : ConnState) (e : ConnEvent)
    (h : admissibleEv s e = true) :
    (connStep s e).1 = specTable s e ∧
    ((connStep s e).2 = true ↔ s = .disconnected ∧ e = .tick) := by
  cases s <;> cases e <;> revert h <;> decide

/-- C3 (witness): the table at the Disconnected-tick row. -/
theorem conn_state_machine_table_witness :
    admissibleEv .disconnected .tick = true ∧
    ((connStep .disconnected .tick).1 = specTable .disconnected .tick ∧
      ((connStep .disconnected .tick).2 = true ↔
        ConnState.disconnected = .disconnected ∧ ConnEvent.tick = .tick)) :=
  ⟨by decide, conn_state_machine_table .disconnected .tick (by decide)⟩

/-- C4: the setpoint put on the wire is
(lateral + roll trim, longitudinal + pitch trim, angular,
clamp(floor(vertical), 0, 60000)) — Python `int` truncation agrees with
`floor` under the clamp at 0 — and the spec's scenario holds: trims
(1, -0.5) and command (lateral 2, longitudinal 3, angular 0.1,
vertical 100) yield (3, 2.5, 0.1, 100). -/
theorem send_setpoint_trim_clamp :
    (∀ (cmd : Twist) (rt pt : ℚ),
      send_setpoint cmd rt pt =
        ⟨cmd.linear.y + rt, cmd.linear.x + pt, cmd.angular.z,
          min (max 0 ⌊cmd.linear.z⌋) 60000⟩) ∧
    send_setpoint ⟨⟨3, 2, 100⟩, ⟨0, 0, 1/10⟩⟩ 1 (-(1/2)) =
      ⟨3, 5/2, 1/10, 100⟩ := by
  constructor
  · intro cmd rt pt
    simp only [send_setpoint, Setpoint.mk.injEq]
    exact ⟨trivial, trivial, trivial, clamp_pyInt_eq_clamp_floor _⟩
  · simp [send_setpoint, pyInt]
    norm_num

/-- C2 (counterexample): the claim that the shutdown sequence waits one
extra 10 ms interval before closing the link is false: the wait between the
last zero-setpoint's interval and `close_link` is `rospy.sleep(0.1)` —
100 ms, ten send intervals. -/
theorem shutdown_final_wait_not_one_interval :
    (shutdownSeq 0 0 Twist.zero).drop 200 =
      [Event.sleepMs 100, Event.closeLink] ∧
    Event.sleepMs 100 ≠ Event.sleepMs 10 := by
  decide

/-- C2 (amended): on leaving the periodic phase the watchdog sends exactly
100 zero-setpoints (0,0,0,0) at a fixed 10 ms interval, then waits an extra
100 ms (ten send intervals), and only then closes the link.  The trace is a
fixed finite list — 202 events — independent of the session's trims and
stored command, so it is bounded by iteration count and involves no device
acknowledgment. -/
theorem shutdown_sequence_fixed (rt pt : ℚ) (c : Twist) :
    shutdownSeq rt pt c = shutdownSeq 0 0 Twist.zero ∧
    (shutdownSeq rt pt c).filter Event.isSend =
      List.replicate 100 (Event.send ⟨0, 0, 0, 0⟩) ∧
    (∀ i : Fin 100,
      (shutdownSeq rt pt c).get? (2 * i.val) = some (Event.send ⟨0, 0, 0, 0⟩) ∧
      (shutdownSeq rt pt c).get? (2 * i.val + 1) = some (Event.sleepMs 10)) ∧
    (shutdownSeq rt pt c).drop 200 = [Event.sleepMs 100, Event.closeLink] ∧
    (shutdownSeq rt pt c).length = 202 := by
  rw [show shutdownSeq rt pt c = shutdownSeq 0 0 Twist.zero from rfl]
  refine ⟨rfl, by decide, by decide, by decide, by decide⟩

/-- C10: every send of the shutdown sequence is the literal (0,0,0,0),
bypassing `_send_setpoint` — whereas the normal send path applies the
trims, so with a nonzero roll or pitch trim even the zeroed stored command
does not produce an all-zero setpoint on the wire. -/
theorem shutdown_sends_bypass_trim (rt pt : ℚ) (c : Twist) :
    (shutdownSeq rt pt c).filter Event.isSend =
      List.replicate 100 (Event.send ⟨0, 0, 0, 0⟩) ∧
    ((rt ≠ 0 ∨ pt ≠ 0) → send_setpoint Twist.zero rt pt ≠ ⟨0, 0, 0, 0⟩) := by
  constructor
  · rw [show shutdownSeq rt pt c = shutdownSeq 0 0 Twist.zero from rfl]
    decide
  · intro h heq
    simp only [send_setpoint, Twist.zero, Setpoint.mk.injEq, zero_add] at heq
    rcases h with h | h
    · exact h heq.1
    · exact h heq.2.1

/-- C10 (witness): at roll trim 1, pitch trim 0, zero stored command. -/
theorem shutdown_sends_bypass_trim_witness :
    ((1 : ℚ) ≠ 0 ∨ (0 : ℚ) ≠ 0) ∧
    ((shutdownSeq 1 0 Twist.zero).filter Event.isSend =
        List.replicate 100 (Event.send ⟨0, 0, 0, 0⟩) ∧
      send_setpoint Twist.zero 1 0 ≠ ⟨0, 0, 0, 0⟩) :=
  ⟨Or.inl one_ne_zero,
    (shutdown_sends_bypass_trim 1 0 Twist.zero).1,
    (shutdown_sends_bypass_trim 1 0 Twist.zero).2 (Or.inl one_ne_zero)⟩

/-- C8: in the Connected branch with no `cmd_vel` subscriber the watchdog
stores the all-zero default command, but the wire value is
(roll trim, pitch trim, 0, 0): with a nonzero trim the "safe default" send
is not all-zero on the wire. -/
theorem watchdog_default_send_carries_trims (s : SessionState) :
    (watchdogNoSubscriber s).1.cmdVel = Twist.zero ∧
    (watchdogNoSubscriber s).2 = ⟨s.roll_trim, s.pitch_trim, 0, 0⟩ ∧
    ((s.roll_trim ≠ 0 ∨ s.pitch_trim ≠ 0) →
      (watchdogNoSubscriber s).2 ≠ ⟨0, 0, 0, 0⟩) := by
  have h2 : (watchdogNoSubscriber s).2 = ⟨s.roll_trim, s.pitch_trim, 0, 0⟩ := by
    simp [watchdogNoSubscriber, send_setpoint, Twist.zero, pyInt]
  refine ⟨rfl, h2, ?_⟩
  intro h heq
  rw [h2] at heq
  simp only [Setpoint.mk.injEq] at heq
  rcases h with h | h
  · exact h heq.1
  · exact h heq.2.1

/-- C8 (witness): at trims (1, -1/2). -/
theorem watchdog_default_send_carries_trims_witness :
    ((1 : ℚ) ≠ 0 ∨ (-(1/2) : ℚ) ≠ 0) ∧
    ((watchdogNoSubscriber ⟨Twist.zero, false, 1, -(1/2)⟩).1.cmdVel = Twist.zero ∧
      (watchdogNoSubscriber ⟨Twist.zero, false, 1, -(1/2)⟩).2 = ⟨1, -(1/2), 0, 0⟩ ∧
      (watchdogNoSubscriber ⟨Twist.zero, false, 1, -(1/2)⟩).2 ≠ ⟨0, 0, 0, 0⟩) := by
  have h := watchdog_default_send_carries_trims ⟨Twist.zero, false, 1, -(1/2)⟩
  exact ⟨Or.inl one_ne_zero, h.1, h.2.1, h.2.2 (Or.inl one_ne_zero)⟩

/-- C5: the gyroscope conversion is `math.radians`, so a reading of 180
device units is published as π; but the accelerometer field is multiplied
by 9.81 although the code's own comment declares it "measured in mG; need
to convert to m/s^2" — so a reading of 1000 device units is published as
9810, not ≈9.81 as the comment's units imply. -/
theorem imu_scaling_acc_bug :
    radians 180 = Real.pi ∧
    (∀ d : ImuData,
      (log_data_imu d).angular_velocity.x = radians d.gyro_x ∧
      (log_data_imu d).linear_acceleration.x = d.acc_x * 9.81) ∧
    (log_data_imu ⟨1000, 0, 0, 180, 0, 0⟩).angular_velocity.x = Real.pi ∧
    (log_data_imu ⟨1000, 0, 0, 180, 0, 0⟩).linear_acceleration.x = 9810 ∧
    (9810 : ℝ) ≠ 9.81 := by
  have hπ : radians 180 = Real.pi := by
    rw [radians, mul_comm]
    exact div_mul_cancel₀ Real.pi (by norm_num)
  refine ⟨hπ, fun d => ⟨rfl, rfl⟩, ?_, ?_, by norm_num⟩
  · show radians 180 = Real.pi
    exact hπ
  · show (1000 : ℝ) * 9.81 = 9810
    norm_num

/-- C6: parameter-identifier mapping is the delimiter swap in both
directions, the two directions are mutually inverse when the identifier
contains no occurrence of the target delimiter, a device notification for
`flightmode.posSet` writes the external path `cf/flightmode/posSet`, and
an update-parameters request for `flightmode/posSet` pushes the external
store's current value to the device identifier `flightmode.posSet`. -/
theorem param_delimiter_swap :
    (∀ name : String, '/' ∉ name.data →
      cfParamOf (replaceChar '.' '/' name) = name) ∧
    (∀ p : String, '.' ∉ p.data →
      replaceChar '.' '/' (cfParamOf p) = p) ∧
    param_callback "cf" "flightmode.posSet" "v" = ("cf/flightmode/posSet", "v") ∧
    update_params (fun s => if s = "/cf/flightmode/posSet" then some "1" else none)
        id (fun _ _ => true) "cf" ["flightmode/posSet"] =
      ([("flightmode.posSet", "1")], none) := by
  refine ⟨?_, ?_, by decide, by decide⟩
  · intro name h
    exact replaceChar_swap_swap '.' '/' name h
  · intro p h
    exact replaceChar_swap_swap '/' '.' p h

/-- C6 (witness): the round trip at the scenario's identifier. -/
theorem param_delimiter_swap_witness :
    '/' ∉ "flightmode.posSet".data ∧
    cfParamOf (replaceChar '.' '/' "flightmode.posSet") = "flightmode.posSet" :=
  ⟨by decide, param_delimiter_swap.1 "flightmode.posSet" (by decide)⟩

/-- C7 (counterexample): the claim that a failure on one entry does not
block the remaining entries is false: with no value stored for path `a`,
the request `[a, b]` pushes nothing — the `KeyError` aborts the loop —
although `b` alone is pushed successfully. -/
theorem update_params_failure_blocks_rest :
    update_params (fun s => if s = "/cf/b" then some "1" else none)
        id (fun _ _ => true) "cf" ["a", "b"] =
      ([], some "KeyError: /cf/a") ∧
    update_params (fun s => if s = "/cf/b" then some "1" else none)
        id (fun _ _ => true) "cf" ["b"] =
      ([("b", "1")], none) := by
  decide

/-- C7 (amended): entries are pushed independently in list order with no
rollback — the pushes performed are exactly the maximal prefix of entries
that succeed — but there is no per-entry exception handling, so the first
failing entry terminates the handler and no later entry is pushed; the
handler returns normally iff every entry succeeds. -/
theorem update_params_prefix_no_rollback (V : Type)
    (store : String → Option V) (toStr : V → String)
    (devOk : String → String → Bool) (tfp : String) (params : List String) :
    (update_params store toStr devOk tfp params).1 =
      (params.takeWhile (entryOk store toStr devOk tfp)).map
        (pushOf store toStr tfp) ∧
    ((update_params store toStr devOk tfp params).2 = none ↔
      params.all (entryOk store toStr devOk tfp) = true) :=
  ⟨update_params_fst store toStr devOk tfp params,
    update_params_snd store toStr devOk tfp params⟩

/-- C9: the update-parameters handler reads the parameter server
unconditionally (the `has_param` guard is commented out), so a request
containing a path with no stored value terminates exceptionally instead of
returning the normal response; and every value it does push is the
stringification of a stored value. -/
theorem update_params_unguarded_read (V : Type) (store : String → Option V)
    (toStr : V → String) (devOk : String → String → Bool) (tfp p : String)
    (params : List String) (hp : p ∈ params)
    (hmiss : store (rosParamOf tfp p) = none) :
    (update_params store toStr devOk tfp params).2 ≠ none ∧
    ∀ x ∈ (update_params store toStr devOk tfp params).1,
      ∃ q v, q ∈ params ∧ store (rosParamOf tfp q) = some v ∧
        x = (cfParamOf q, toStr v) := by
  constructor
  · intro hnone
    have hall := (update_params_snd store toStr devOk tfp params).mp hnone
    have h1 : entryOk store toStr devOk tfp p = true := by
      have := List.all_eq_true.mp hall
      exact this p hp
    simp [entryOk, hmiss] at h1
  · exact update_params_pushes_shape store toStr devOk tfp params

/-- C9 (witness): a one-entry request whose path has no stored value. -/
theorem update_params_unguarded_read_witness :
    ("a" ∈ ["a"] ∧ (fun _ => (none : Option String)) (rosParamOf "cf" "a") = none) ∧
    ((update_params (fun _ => (none : Option String)) id (fun _ _ => true)
        "cf" ["a"]).2 ≠ none ∧
      ∀ x ∈ (update_params (fun _ => (none : Option String)) id (fun _ _ => true)
          "cf" ["a"]).1,
        ∃ q v, q ∈ ["a"] ∧ (fun _ => (none : Option String)) (rosParamOf "cf" q) = some v ∧
          x = (cfParamOf q, id v)) :=
  ⟨⟨List.mem_cons.mpr (Or.inl rfl), rfl⟩,
    update_params_unguarded_read String (fun _ => none) id (fun _ _ => true)
      "cf" "a" ["a"] (List.mem_cons.mpr (Or.inl rfl)) rfl⟩
